import Mathlib

/-!
Verification of the reactive disaster-response decision engine of
`lab-03/reactive_agent.py`: the sensor-report classifier, the severity
tiers, the event queue and the FSM (`FSMBehaviour`), shallowly embedded
with exact rational arithmetic in place of Python floats.
-/

namespace ReactiveAgent

/-- The FSM states of the rescue agent (`class AgentState(Enum)`). -/
inductive AgentState
  | IDLE
  | MONITORING
  | ASSESSING
  | RESPONDING
  | RESCUING
  | EVACUATING
  | RECOVERY
deriving DecidableEq, Repr

/-- The agent goals (`class Goal(Enum)`). -/
inductive Goal
  | MAINTAIN_SAFETY
  | DETECT_DISASTERS
  | ASSESS_DAMAGE
  | RESCUE_VICTIMS
  | EVACUATE_AREA
  | COORDINATE_RESPONSE
deriving DecidableEq, Repr

/-- A disaster event (`class DisasterEvent`); the wall-clock timestamp is
an external input and is not part of the decision logic. Severities are
the strings produced by `_get_severity`. -/
structure DisasterEvent where
  event_type : String
  severity : String
  location : String
deriving DecidableEq, Repr

/-- An environmental sensor report (`class SensorReport`): the four
sampled fields. The sampler draws them uniformly at random; here they
are explicit inputs. -/
structure SensorReport where
  temperature : ℚ
  wind_speed : ℚ
  water_level : ℚ
  structural_damage : ℚ
deriving DecidableEq, Repr

/-- `SensorReport._get_severity(value, min_threshold, max_threshold)`:
normalized position in the threshold band, compared strictly against
0.33 and 0.66. -/
def get_severity (value min_threshold max_threshold : ℚ) : String :=
  let range_size := max_threshold - min_threshold
  let position := (value - min_threshold) / range_size
  if position < 33/100 then "Medium"
  else if position < 66/100 then "High"
  else "Critical"

/-- `SensorReport.detect_disaster`: ordered rules, first match wins. -/
def detect_disaster (r : SensorReport) : Option DisasterEvent :=
  if r.temperature > 40 then
    some ⟨"Fire", get_severity r.temperature 40 50, "Fire Zone"⟩
  else if r.water_level > 5 then
    some ⟨"Flood", get_severity r.water_level 5 10, "Flood Zone"⟩
  else if r.wind_speed > 80 then
    some ⟨"Hurricane", get_severity r.wind_speed 80 120, "Storm Zone"⟩
  else if r.structural_damage > 60 then
    some ⟨"Building Collapse", get_severity r.structural_damage 60 100, "Collapse Zone"⟩
  else
    none

/-- `FSMBehaviour.handle_event`: the event-triggered transition rules.
The Python `random.random()` draw is injected as the argument `draw`;
the completion test is `draw < 0.3`. The method mutates
`self.state`/`self.current_goal`; here it returns the new pair. -/
def handle_event (state : AgentState) (current_goal : Goal)
    (e : DisasterEvent) (draw : ℚ) : AgentState × Goal :=
  if state = .IDLE ∨ state = .MONITORING then
    (.ASSESSING, .ASSESS_DAMAGE)
  else if state = .ASSESSING then
    if e.severity = "Critical" then (.RESCUING, .RESCUE_VICTIMS)
    else if e.severity = "High" then (.EVACUATING, .EVACUATE_AREA)
    else (.RESPONDING, .COORDINATE_RESPONSE)
  else if state = .RESPONDING ∨ state = .RESCUING ∨ state = .EVACUATING then
    if draw < 3/10 then (.RECOVERY, .COORDINATE_RESPONSE)
    else (state, current_goal)
  else if state = .RECOVERY then
    (.MONITORING, .DETECT_DISASTERS)
  else
    (state, current_goal)

/-- `FSMBehaviour.execute_state_behavior`: the per-state action rule.
Every branch only emits trace lines except `IDLE`, which also sets
`self.state = MONITORING`; the goal is never touched here. -/
def execute_state_behavior (state : AgentState) : AgentState :=
  if state = .IDLE then .MONITORING else state

/-- `self.event_queue.append(event)`: FIFO push at the back. -/
def push (q : List DisasterEvent) (e : DisasterEvent) : List DisasterEvent :=
  q ++ [e]

/-- The guarded `if self.event_queue: event = self.event_queue.pop(0)`
pattern of `FSMBehaviour.run`: pop the front if non-empty, else return
none and leave the queue unchanged. -/
def popFront (q : List DisasterEvent) : Option DisasterEvent × List DisasterEvent :=
  match q with
  | [] => (none, [])
  | e :: rest => (some e, rest)

/-- Enqueue step of `FSMBehaviour.run`: `if event: self.event_queue.append(event)`. -/
def enqueue (q : List DisasterEvent) (ev : Option DisasterEvent) : List DisasterEvent :=
  match ev with
  | some e => push q e
  | none => q

/-- The mutable fields of `FSMBehaviour` that carry the decision state. -/
structure FSMBehaviour where
  state : AgentState
  current_goal : Goal
  cycle_count : ℕ
  event_queue : List DisasterEvent
deriving DecidableEq, Repr

/-- `FSMBehaviour.__init__`: IDLE, MAINTAIN_SAFETY, cycle 0, empty queue. -/
def initFSM : FSMBehaviour :=
  { state := .IDLE, current_goal := .MAINTAIN_SAFETY, cycle_count := 0, event_queue := [] }

/-- Result of one cycle: the updated behaviour state and whether the
cycle budget was reported reached (the `cycle_count >= 15`
"Simulation complete" branch). -/
structure StepResult where
  fsm : FSMBehaviour
  done : Bool
deriving DecidableEq, Repr

/-- One `FSMBehaviour.run` cycle: increment the counter, classify the
fresh sensor report, enqueue a detected event, pop at most one event
and run `handle_event` on it, run `execute_state_behavior`, and report
completion when the counter has reached 15. The sensor report and the
random draw are injected. -/
def run (fsm : FSMBehaviour) (report : SensorReport) (draw : ℚ) : StepResult :=
  let cycle := fsm.cycle_count + 1
  let q1 := enqueue fsm.event_queue (detect_disaster report)
  let popped := popFront q1
  let sg :=
    match popped.1 with
    | some e => handle_event fsm.state fsm.current_goal e draw
    | none => (fsm.state, fsm.current_goal)
  let s2 := execute_state_behavior sg.1
  { fsm := { state := s2, current_goal := sg.2, cycle_count := cycle, event_queue := popped.2 },
    done := decide (cycle ≥ 15) }

/-- Iterated cycles from a fresh `FSMBehaviour`, with injected streams
of sensor reports and random draws. -/
def runSteps (reports : ℕ → SensorReport) (draws : ℕ → ℚ) : ℕ → FSMBehaviour
  | 0 => initFSM
  | k + 1 => (run (runSteps reports draws k) (reports k) (draws k)).fsm

/-- The severity tier exactly as §4.2 of the spec words it (refinement
reference written from the spec's sentence, for comparison with
`get_severity`): position clamped to the domain [0,1], strict
thresholds 0.33 and 0.66. -/
def specSeverityTier (value lo hi : ℚ) : String :=
  let position := max 0 (min 1 ((value - lo) / (hi - lo)))
  if position < 33/100 then "Medium"
  else if position < 66/100 then "High"
  else "Critical"

/-- The three severity tiers as the spec's transition table names them. -/
inductive SpecSeverity
  | Medium
  | High
  | Critical
deriving DecidableEq, Repr

/-- The severity string carried by a disaster event of each spec tier. -/
def SpecSeverity.toString : SpecSeverity → String
  | .Medium => "Medium"
  | .High => "High"
  | .Critical => "Critical"

/-- The event-triggered transition table exactly as §4.4 of the spec
states it (refinement reference written from the spec's table, for
comparison with `handle_event`); `completed` is whether the injected
random draw signals completion of the response. -/
def specTransitionTable (s : AgentState) (g : Goal) (sev : SpecSeverity)
    (completed : Bool) : AgentState × Goal :=
  match s with
  | .IDLE => (.ASSESSING, .ASSESS_DAMAGE)
  | .MONITORING => (.ASSESSING, .ASSESS_DAMAGE)
  | .ASSESSING =>
    match sev with
    | .Critical => (.RESCUING, .RESCUE_VICTIMS)
    | .High => (.EVACUATING, .EVACUATE_AREA)
    | .Medium => (.RESPONDING, .COORDINATE_RESPONSE)
  | .RESPONDING => if completed then (.RECOVERY, .COORDINATE_RESPONSE) else (.RESPONDING, g)
  | .RESCUING => if completed then (.RECOVERY, .COORDINATE_RESPONSE) else (.RESCUING, g)
  | .EVACUATING => if completed then (.RECOVERY, .COORDINATE_RESPONSE) else (.EVACUATING, g)
  | .RECOVERY => (.MONITORING, .DETECT_DISASTERS)

/-- Ordering of the severity tiers: Medium < High < Critical. -/
def tierRank (s : String) : ℕ :=
  if s = "Medium" then 0 else if s = "High" then 1 else 2

/-- C2: for every reading, `detect_disaster` evaluates the four rules in
the fixed order Fire, Flood, Hurricane, BuildingCollapse and
short-circuits at the first match: temperature > 40 gives a Fire event
at "Fire Zone" with severity `get_severity temperature 40 50` regardless
of the other fields; otherwise waterLevel > 5 gives Flood; otherwise
windSpeed > 80 gives Hurricane; otherwise structuralDamage > 60 gives
BuildingCollapse; otherwise no event. -/
theorem classify_ordered (r : SensorReport) :
    (r.temperature > 40 →
      detect_disaster r = some ⟨"Fire", get_severity r.temperature 40 50, "Fire Zone"⟩)
    ∧ (r.temperature ≤ 40 → r.water_level > 5 →
      detect_disaster r = some ⟨"Flood", get_severity r.water_level 5 10, "Flood Zone"⟩)
    ∧ (r.temperature ≤ 40 → r.water_level ≤ 5 → r.wind_speed > 80 →
      detect_disaster r = some ⟨"Hurricane", get_severity r.wind_speed 80 120, "Storm Zone"⟩)
    ∧ (r.temperature ≤ 40 → r.water_level ≤ 5 → r.wind_speed ≤ 80 →
        r.structural_damage > 60 →
      detect_disaster r
        = some ⟨"Building Collapse", get_severity r.structural_damage 60 100, "Collapse Zone"⟩)
    ∧ (r.temperature ≤ 40 → r.water_level ≤ 5 → r.wind_speed ≤ 80 →
        r.structural_damage ≤ 60 →
      detect_disaster r = none) := by
  unfold detect_disaster
  refine ⟨?_, ?_, ?_, ?_, ?_⟩ <;> intros <;> split_ifs <;> first | rfl | linarith

/-- Witness for C2: a reading where every rule matches still classifies
as Fire, because rule 1 is checked first. -/
theorem classify_ordered_witness :
    (42 : ℚ) > 40
    ∧ detect_disaster ⟨42, 200, 100, 100⟩
        = some ⟨"Fire", get_severity 42 40 50, "Fire Zone"⟩ :=
  ⟨by norm_num, (classify_ordered ⟨42, 200, 100, 100⟩).1 (by norm_num)⟩

/-- C3: for thresholds lo < hi, `get_severity` agrees with the spec's
`severityTier` (position clamped to the domain, Medium below 0.33, High
below 0.66, Critical otherwise); the boundary positions exactly 0.33
and 0.66 resolve to the higher tier; and in particular
`severityTier(42, 40, 50) = Medium` with position 0.2. -/
theorem severity_tier_spec :
    (∀ value lo hi : ℚ, lo < hi → get_severity value lo hi = specSeverityTier value lo hi)
    ∧ (∀ value lo hi : ℚ, lo < hi → (value - lo) / (hi - lo) = 33/100 →
        get_severity value lo hi = "High")
    ∧ (∀ value lo hi : ℚ, lo < hi → (value - lo) / (hi - lo) = 66/100 →
        get_severity value lo hi = "Critical")
    ∧ get_severity 42 40 50 = "Medium"
    ∧ ((42 : ℚ) - 40) / (50 - 40) = 2/10 := by
  refine ⟨?_, ?_, ?_, by norm_num [get_severity], by norm_num⟩
  · intro value lo hi h
    simp only [get_severity, specSeverityTier]
    rcases le_or_lt 0 ((value - lo) / (hi - lo)) with h0 | h0
    · rcases le_or_lt ((value - lo) / (hi - lo)) 1 with h1 | h1
      · rw [min_eq_right h1, max_eq_right h0]
      · rw [min_eq_left h1.le, max_eq_right zero_le_one]
        split_ifs <;> first | rfl | linarith
    · rw [min_eq_right (by linarith : (value - lo) / (hi - lo) ≤ 1), max_eq_left h0.le]
      split_ifs <;> first | rfl | linarith
  · intro value lo hi h hpos
    simp only [get_severity]
    rw [hpos]
    norm_num
  · intro value lo hi h hpos
    simp only [get_severity]
    rw [hpos]
    norm_num

/-- Witness for C3: the agreement of `get_severity` with the spec tier at
the concrete thresholds 40 < 50 and value 42. -/
theorem severity_tier_spec_witness :
    (40 : ℚ) < 50 ∧ get_severity 42 40 50 = specSeverityTier 42 40 50 :=
  ⟨by norm_num, severity_tier_spec.1 42 40 50 (by norm_num)⟩

/-- C7: for fixed thresholds lo < hi, the severity tier is monotone in
the sensed value, under the ordering Medium < High < Critical. -/
theorem severity_monotone (v1 v2 lo hi : ℚ) (hlh : lo < hi) (hv : v1 < v2) :
    tierRank (get_severity v1 lo hi) ≤ tierRank (get_severity v2 lo hi) := by
  have hpos : (0 : ℚ) < hi - lo := by linarith
  have hp : (v1 - lo) / (hi - lo) < (v2 - lo) / (hi - lo) :=
    (div_lt_div_iff_of_pos_right hpos).mpr (by linarith)
  simp only [get_severity]
  split_ifs <;> simp [tierRank] <;> linarith

/-- Witness for C7: monotonicity at the concrete values 41 < 49 in the
fire band [40, 50]. -/
theorem severity_monotone_witness :
    (40 : ℚ) < 50 ∧ (41 : ℚ) < 49
    ∧ tierRank (get_severity 41 40 50) ≤ tierRank (get_severity 49 40 50) :=
  ⟨by norm_num, by norm_num, severity_monotone 41 49 40 50 (by norm_num) (by norm_num)⟩

/-- C1: `handle_event` coincides with the spec's transition table as a
function of the current state, the event severity and the injected
random draw: Idle/Monitoring go unconditionally to
Assessing/AssessDamage; Assessing branches on severity to
Rescuing/RescueVictims (Critical), Evacuating/EvacuateArea (High) or
Responding/CoordinateResponse (Medium); Responding, Rescuing and
Evacuating go to Recovery/CoordinateResponse exactly when the draw
signals completion (draw < 0.3) and otherwise stay put with the goal
unchanged; Recovery goes unconditionally to
Monitoring/DetectDisasters. -/
theorem handle_event_matches_spec_table (s : AgentState) (g : Goal)
    (sev : SpecSeverity) (ty loc : String) (draw : ℚ) :
    handle_event s g ⟨ty, sev.toString, loc⟩ draw
      = specTransitionTable s g sev (decide (draw < 3/10)) := by
  cases s <;> cases sev <;>
    simp [handle_event, specTransitionTable, SpecSeverity.toString]

/-- C4: from the fresh FSM (state Idle, goal MaintainSafety, empty
queue), one `run` cycle in which no disaster is detected ends in state
Monitoring with the goal still MaintainSafety; and the action rule
itself maps Idle to Monitoring, independent of the event outcome. -/
theorem idle_bootstrap_to_monitoring :
    (∀ (report : SensorReport) (draw : ℚ), detect_disaster report = none →
      (run initFSM report draw).fsm.state = AgentState.MONITORING
      ∧ (run initFSM report draw).fsm.current_goal = Goal.MAINTAIN_SAFETY)
    ∧ execute_state_behavior AgentState.IDLE = AgentState.MONITORING := by
  constructor
  · intro report draw h
    simp [run, initFSM, enqueue, popFront, h, execute_state_behavior]
  · rfl

/-- Witness for C4: the quiet reading (20, 10, 1, 5) detects nothing and
bootstraps Idle to Monitoring with the goal unchanged. -/
theorem idle_bootstrap_to_monitoring_witness :
    detect_disaster ⟨20, 10, 1, 5⟩ = none
    ∧ ((run initFSM ⟨20, 10, 1, 5⟩ 1).fsm.state = AgentState.MONITORING
      ∧ (run initFSM ⟨20, 10, 1, 5⟩ 1).fsm.current_goal = Goal.MAINTAIN_SAFETY) :=
  ⟨by norm_num [detect_disaster],
    idle_bootstrap_to_monitoring.1 ⟨20, 10, 1, 5⟩ 1 (by norm_num [detect_disaster])⟩

/-- C10: under the sampler's field bounds some tiers are unreachable:
a Fire event classified from a reading with temperature ≤ 45 is never
Critical, and a Flood event classified from a reading with
waterLevel ≤ 8 is never Critical. -/
theorem sampler_bounds_cap_severity (r : SensorReport) :
    (r.temperature ≤ 45 → ∀ sev loc, detect_disaster r = some ⟨"Fire", sev, loc⟩ →
      sev = "Medium" ∨ sev = "High")
    ∧ (r.water_level ≤ 8 → ∀ sev loc, detect_disaster r = some ⟨"Flood", sev, loc⟩ →
      sev = "Medium" ∨ sev = "High") := by
  constructor
  · intro ht sev loc heq
    unfold detect_disaster at heq
    by_cases h1 : r.temperature > 40
    · rw [if_pos h1] at heq
      simp only [Option.some.injEq, DisasterEvent.mk.injEq] at heq
      obtain ⟨-, hsev, -⟩ := heq
      subst hsev
      simp only [get_severity]
      have hub : (r.temperature - 40) / (50 - 40) < 66/100 := by
        rw [div_lt_iff₀ (by norm_num : (0 : ℚ) < 50 - 40)]
        linarith
      split_ifs with ha
      · exact Or.inl rfl
      · exact Or.inr rfl
    · rw [if_neg h1] at heq
      split_ifs at heq <;> simp_all
  · intro hw sev loc heq
    unfold detect_disaster at heq
    by_cases h1 : r.temperature > 40
    · rw [if_pos h1] at heq
      simp_all
    · rw [if_neg h1] at heq
      by_cases h2 : r.water_level > 5
      · rw [if_pos h2] at heq
        simp only [Option.some.injEq, DisasterEvent.mk.injEq] at heq
        obtain ⟨-, hsev, -⟩ := heq
        subst hsev
        simp only [get_severity]
        have hub : (r.water_level - 5) / (10 - 5) < 66/100 := by
          rw [div_lt_iff₀ (by norm_num : (0 : ℚ) < 10 - 5)]
          linarith
        split_ifs with ha
        · exact Or.inl rfl
        · exact Or.inr rfl
      · rw [if_neg h2] at heq
        split_ifs at heq <;> simp_all

/-- Witness for C10: the reading (44, 10, 1, 5) classifies as a Fire of
severity High, which the theorem caps below Critical. -/
theorem sampler_bounds_cap_severity_witness :
    (44 : ℚ) ≤ 45
    ∧ detect_disaster ⟨44, 10, 1, 5⟩ = some ⟨"Fire", "High", "Fire Zone"⟩
    ∧ ("High" = "Medium" ∨ "High" = "High") :=
  ⟨by norm_num, by norm_num [detect_disaster, get_severity],
    (sampler_bounds_cap_severity ⟨44, 10, 1, 5⟩).1 (by norm_num) "High" "Fire Zone"
      (by norm_num [detect_disaster, get_severity])⟩

/-- Helper: a goal change in `handle_event` forces a state change that
the action rule does not undo. -/
theorem handle_event_goal_change_forces_state_change (s : AgentState) (g : Goal)
    (e : DisasterEvent) (draw : ℚ)
    (h : (handle_event s g e draw).2 ≠ g) :
    execute_state_behavior (handle_event s g e draw).1 ≠ s := by
  cases s <;> simp_all [handle_event, execute_state_behavior] <;> split_ifs <;> simp_all

/-- C5 counterexample: the claim that state and goal never change one
without the other fails on the Idle bootstrap: one quiet cycle from the
fresh FSM changes the state (Idle to Monitoring) while the goal stays
MaintainSafety. -/
theorem state_goal_pair_counterexample :
    (run initFSM ⟨20, 10, 1, 5⟩ 1).fsm.state ≠ initFSM.state
    ∧ (run initFSM ⟨20, 10, 1, 5⟩ 1).fsm.current_goal = initFSM.current_goal := by
  refine ⟨?_, ?_⟩ <;>
    norm_num [run, initFSM, enqueue, popFront, detect_disaster, execute_state_behavior] <;>
    decide

/-- C5 (amended): state and goal change only inside the FSM cycle, and
the goal never changes without the state changing in the same cycle;
the converse direction fails (the Idle bootstrap and the transition to
Recovery can change the state while the goal keeps its value). -/
theorem goal_changes_only_with_state (fsm : FSMBehaviour) (report : SensorReport)
    (draw : ℚ)
    (h : (run fsm report draw).fsm.current_goal ≠ fsm.current_goal) :
    (run fsm report draw).fsm.state ≠ fsm.state := by
  simp only [run] at h ⊢
  rcases hq : (popFront (enqueue fsm.event_queue (detect_disaster report))).1 with _ | e
  · simp [hq] at h
  · simp only [hq] at h ⊢
    exact handle_event_goal_change_forces_state_change _ _ _ _ h

/-- Witness for C5: from Monitoring, a cycle that detects a fire changes
the goal (to AssessDamage), and the theorem yields the state change. -/
theorem goal_changes_only_with_state_witness :
    (run ⟨.MONITORING, .MAINTAIN_SAFETY, 0, []⟩ ⟨42, 10, 1, 5⟩ 1).fsm.current_goal
        ≠ (⟨.MONITORING, .MAINTAIN_SAFETY, 0, []⟩ : FSMBehaviour).current_goal
    ∧ (run ⟨.MONITORING, .MAINTAIN_SAFETY, 0, []⟩ ⟨42, 10, 1, 5⟩ 1).fsm.state
        ≠ (⟨.MONITORING, .MAINTAIN_SAFETY, 0, []⟩ : FSMBehaviour).state :=
  ⟨by norm_num [run, enqueue, push, popFront, detect_disaster, get_severity,
      handle_event, execute_state_behavior] <;> decide,
    goal_changes_only_with_state _ _ _
      (by norm_num [run, enqueue, push, popFront, detect_disaster, get_severity,
        handle_event, execute_state_behavior] <;> decide)⟩

/-- Helper: the cycle counter after `k` cycles equals `k`, whatever the
injected inputs were. -/
theorem runSteps_cycle_count (reports : ℕ → SensorReport) (draws : ℕ → ℚ) (k : ℕ) :
    (runSteps reports draws k).cycle_count = k := by
  induction k with
  | zero => rfl
  | succ n ih => simp [runSteps, run, ih]

/-- C6: in a run of repeated cycles from the fresh FSM, the
cycle-budget-reached report (`done`) is produced exactly once: on the
15th call (index 14 of the zero-indexed calls of the 15-call run) and
on no other call. -/
theorem budget_reported_on_15th (reports : ℕ → SensorReport) (draws : ℕ → ℚ)
    (k : ℕ) (hk : k < 15) :
    (run (runSteps reports draws k) (reports k) (draws k)).done = true ↔ k = 14 := by
  simp only [run, runSteps_cycle_count, decide_eq_true_eq, ge_iff_le]
  omega

/-- Witness for C6: the 15th call (index 14) of a concrete quiet run
reports the budget reached. -/
theorem budget_reported_on_15th_witness :
    14 < 15
    ∧ (run (runSteps (fun _ => ⟨20, 10, 1, 5⟩) (fun _ => 1) 14)
        ((fun _ => (⟨20, 10, 1, 5⟩ : SensorReport)) 14)
        ((fun _ => (1 : ℚ)) 14)).done = true :=
  ⟨by norm_num,
    (budget_reported_on_15th (fun _ => ⟨20, 10, 1, 5⟩) (fun _ => 1) 14 (by norm_num)).mpr rfl⟩

/-- C8: `popFront` on the empty queue returns none and leaves the queue
empty (it is a total function, so it cannot raise); on a non-empty
queue it removes and returns the head, which for a queue built by
`push` from empty is the first-inserted event. -/
theorem popFront_contract :
    popFront ([] : List DisasterEvent) = (none, [])
    ∧ (∀ (e : DisasterEvent) (q : List DisasterEvent), popFront (e :: q) = (some e, q))
    ∧ (∀ (e : DisasterEvent) (es : List DisasterEvent),
        popFront (List.foldl push [] (e :: es)) = (some e, es)) := by
  refine ⟨rfl, fun e q => rfl, fun e es => ?_⟩
  have hfold : ∀ (ts q : List DisasterEvent), List.foldl push q ts = q ++ ts := by
    intro ts
    induction ts with
    | nil => intro q; simp
    | cons a t ih => intro q; simp [push, ih]
  simp [hfold, popFront]

/-- Helper: a cycle starting with an empty queue ends with an empty
queue. -/
theorem run_empties_queue (fsm : FSMBehaviour) (report : SensorReport) (draw : ℚ)
    (h : fsm.event_queue = []) :
    (run fsm report draw).fsm.event_queue = [] := by
  rcases hd : detect_disaster report with _ | e <;>
    simp [run, enqueue, push, popFront, h, hd]

/-- C9: starting from the fresh FSM's empty queue, the queue is empty
again at the end of every cycle, and the enqueue phase of the next
cycle brings its depth to at most 1. -/
theorem queue_depth_invariant (reports : ℕ → SensorReport) (draws : ℕ → ℚ) (k : ℕ) :
    (runSteps reports draws k).event_queue = []
    ∧ (enqueue (runSteps reports draws k).event_queue
        (detect_disaster (reports k))).length ≤ 1 := by
  have hq : ∀ n, (runSteps reports draws n).event_queue = [] := by
    intro n
    induction n with
    | zero => rfl
    | succ m ih => exact run_empties_queue _ _ _ ih
  refine ⟨hq k, ?_⟩
  rw [hq k]
  rcases detect_disaster (reports k) with _ | e <;> simp [enqueue, push]

end ReactiveAgent
